import Mathlib

set_option linter.unusedVariables false

/-!
Verification development for the CIDR aggregation engine of
`geoip_nginx` (file `src/geoip_nginx/network.py`).

The embedding models:

* the Python `ipaddress` objects `IPv4Network` / `IPv6Network` as the
  structure `Net` (a tagged address-family width, a network address and a
  prefix length, all as `Nat`);
* the library predicates/operations the code calls:
  `num_addresses` (`IPv?Network.num_addresses`), `broadcast`
  (`broadcast_address`), `subnet_of` (`IPv?Network.subnet_of`, which in
  Python is NON-strict: `a.subnet_of(a)` is `True`), `supernet`
  (`IPv?Network.supernet(prefixlen_diff=1)`, only ever called by the code
  with `prefixlen > 0`);
* `_calculate_coverage` (exact rational arithmetic models Python's
  integer sum followed by a float division; every concrete value compared
  in this file is exactly representable in binary64, so the distinction
  is inert here);
* `_optimize_networks` and `merge_ip_ranges`, with the loops made
  explicit as fuel-indexed functions returning
  `Option (Except PyErr (List Net))`: `none` means the loop has not
  terminated within the given fuel, `some (Except.error e)` models an
  uncaught Python exception propagating out, `some (Except.ok l)` a
  normal return.

Two properties of the Python source are embedded exactly as written,
without repair:

* inside `_optimize_networks`, line 53 reads the name
  `coverage_threshold`, which is neither a parameter of that function nor
  a module global (the module only defines `console`,
  `DEFAULT_COVERAGE_THRESHOLD`, `IPNetwork` and the three functions), so
  evaluating `coverage >= coverage_threshold` raises `NameError`; the
  loop body up to that point (supernet, potential-children selection,
  coverage computation, lines 45-51) is pure and is modelled separately
  as `cursorCoverage`;
* when `current.prefixlen == 0` the whole loop body (lines 43-78) is
  skipped and `i` is not incremented, so the `while` loop repeats the
  same state forever.
-/

namespace Geoip

/-- Uncaught Python exceptions relevant to `network.py`:
`valueError` models the `ValueError` raised by `ipaddress.ip_network`
on malformed input or on host bits set below the prefix (strict mode),
`nameError` models the `NameError` raised at line 53 of `network.py`
when the undefined name `coverage_threshold` is evaluated. -/
inductive PyErr where
  | valueError
  | nameError
deriving DecidableEq

/-- A parsed network prefix: `bits` is the address-family width (32 for
`IPv4Network`, 128 for `IPv6Network`), `addr` the network address as an
integer (host bits zero), `plen` the prefix length. -/
structure Net where
  bits : Nat
  addr : Nat
  plen : Nat
deriving DecidableEq

/-- Python `IPv?Network.num_addresses`: `2 ^ (bits - prefixlen)`. -/
def num_addresses (n : Net) : Nat := 2 ^ (n.bits - n.plen)

/-- Python `IPv?Network.broadcast_address` as an integer:
the last address of the block. -/
def broadcast (n : Net) : Nat := n.addr + num_addresses n - 1

/-- Python `a.subnet_of(b)`: same address family and
`b.network_address <= a.network_address and
a.broadcast_address <= b.broadcast_address`.
This is NON-strict: `subnet_of n n = true`.
(Python raises `TypeError` on a family mismatch; `network.py` only ever
compares same-family networks, because `merge_ip_ranges` partitions by
family before optimizing, so the mismatch case is modelled as `false`.) -/
def subnet_of (a b : Net) : Bool :=
  decide (a.bits = b.bits) && decide (b.addr ≤ a.addr) &&
    decide (broadcast a ≤ broadcast b)

/-- Python `current.supernet(prefixlen_diff=1)`: one bit shorter prefix,
network address masked down to the new prefix. The code only calls this
with `plen > 0` (for `plen = 0` Python would raise; `Nat` truncation at
`plen - 1` is never exercised by any theorem below without that guard). -/
def supernet (n : Net) : Net :=
  ⟨n.bits, n.addr - n.addr % 2 ^ (n.bits - (n.plen - 1)), n.plen - 1⟩

/-- Numerator of `_calculate_coverage` (line 21 of `network.py`):
`sum(net.num_addresses for net in child_networks if net.subnet_of(parent))`. -/
def coveredAddresses (parent : Net) (child_networks : List Net) : Nat :=
  ((child_networks.filter fun net => subnet_of net parent).map num_addresses).sum

/-- `_calculate_coverage` (lines 15-22 of `network.py`):
covered addresses divided by the parent's size. Exact rational in place
of Python's float division. -/
def calculate_coverage (parent : Net) (child_networks : List Net) : ℚ :=
  (coveredAddresses parent child_networks : ℚ) / (num_addresses parent : ℚ)

/-- Line 48 of `network.py`:
`[net for net in networks if net.subnet_of(parent) or net == parent]`. -/
def potential_children (networks : List Net) (parent : Net) : List Net :=
  networks.filter fun net => subnet_of net parent || decide (net = parent)

/-- Lines 45-51 of `network.py`, as a pure function of the full list and
the cursor element: the coverage computed for the immediate parent of
`current` during an optimization pass. -/
def cursorCoverage (networks : List Net) (current : Net) : ℚ :=
  calculate_coverage (supernet current) (potential_children networks (supernet current))

/-- Modelled from the spec (section 4.1): `strictSubnetOf` — containment
with `a == b` explicitly NOT a match. -/
def strict_subnet_of_spec (a b : Net) : Bool :=
  subnet_of a b && !(decide (a = b))

/-- Modelled from the spec (section 4.2 step "potential children"):
`sameOrSubnetOf` — containment with `a == b` a match. -/
def sameOrSubnetOf_spec (a b : Net) : Bool :=
  subnet_of a b || decide (a = b)

/-- Modelled from the spec (section 4.2): coverage of the immediate
parent `P` of the cursor element = (sum of `addressCount` over potential
children that are `strictSubnetOf(P)`) / `addressCount(P)`, where the
potential children are the list members that are `sameOrSubnetOf(P)`. -/
def cursorCoverage_spec (networks : List Net) (current : Net) : ℚ :=
  ((((networks.filter fun net => sameOrSubnetOf_spec net (supernet current)).filter
      fun net => strict_subnet_of_spec net (supernet current)).map num_addresses).sum : ℚ) /
    (num_addresses (supernet current) : ℚ)

/-- Number of occurrences of `p` in `nets`. -/
def countEq (nets : List Net) (p : Net) : Nat :=
  (nets.filter fun n => decide (n = p)).length

/-- The `while i < len(networks)` loop of `_optimize_networks`
(lines 39-78), fuel-indexed; one unit of fuel per loop-condition test.
For a cursor element with `prefixlen > 0` the body computes
`parent`/`potential_children`/`coverage` purely (lines 45-51, see
`cursorCoverage`) and then line 53 evaluates the undefined name
`coverage_threshold`, raising `NameError`, so lines 54-78 are
unreachable and the iteration yields `Except.error PyErr.nameError`.
For a cursor element with `prefixlen == 0` no statement of the body
executes (lines 43-78 are all under `if current.prefixlen > 0:`) and
the loop repeats with unchanged state. -/
def optimize_loop (networks optimised : List Net) (i : Nat) :
    Nat → Option (Except PyErr (List Net))
  | 0 => none
  | fuel + 1 =>
    if h : i < networks.length then
      if 0 < (networks.get ⟨i, h⟩).plen then
        some (Except.error PyErr.nameError)
      else
        optimize_loop networks optimised i fuel
    else
      some (Except.ok optimised)

/-- `_optimize_networks` (lines 25-80): returns the empty accumulator
immediately when the input is empty (lines 32-34), otherwise runs the
scan loop starting from `i = 0` with an empty accumulator. -/
def optimize_networks (networks : List Net) (fuel : Nat) :
    Option (Except PyErr (List Net)) :=
  if networks.length = 0 then some (Except.ok [])
  else optimize_loop networks [] 0 fuel

/-- The per-family `while True:` fixpoint loop of `merge_ip_ranges`
(lines 106-112 and 114-121): run a pass, stop when the length did not
change, otherwise iterate on the pass's output. The second `Nat` bounds
the number of rounds. -/
def optimization_rounds (networks : List Net) (fuel : Nat) :
    Nat → Option (Except PyErr (List Net))
  | 0 => none
  | r + 1 =>
    match optimize_networks networks fuel with
    | none => none
    | some (Except.error e) => some (Except.error e)
    | some (Except.ok nets2) =>
      if nets2.length = networks.length then some (Except.ok nets2)
      else optimization_rounds nets2 fuel r

/-!
## Parsing: a model of `ipaddress.ip_network(text)` (strict mode)

`merge_ip_ranges` parses each input with `ipaddress.ip_network(ip_range)`
(line 95), which with its default `strict=True` raises `ValueError` when
the string is malformed OR when the address has host bits set below the
prefix length. The model below covers the textual forms the repository
exchanges: dotted-quad IPv4 (four decimal octets, no leading zeros, as
CPython rejects them) with an optional `/len`, and hextet IPv6 (groups of
1-4 hex digits separated by single colons, with at most one `::`
compression) with an optional `/len`. Alternate `ipaddress` spellings
(dotted netmask/hostmask after the slash, bare integers, packed bytes,
IPv4-mapped or zoned IPv6) are outside the modelled fragment. Python
tries `IPv4Network` then `IPv6Network` and raises `ValueError` when both
fail; since no dotted quad contains a colon and every modelled IPv6 form
does, matching on the IPv4 syntax first is observably equivalent.
-/

/-- Python `str.split(sep)` for a one-character separator, over the
character list. -/
def splitOnChar (sep : Char) : List Char → List (List Char)
  | [] => [[]]
  | c :: t =>
    if c = sep then [] :: splitOnChar sep t
    else
      match splitOnChar sep t with
      | g :: gs => (c :: g) :: gs
      | [] => [[c]]

/-- Python `str.split(sep)` for the two-character separator `::`
(left-to-right, non-overlapping). -/
def splitDoubleColon : List Char → List (List Char)
  | ':' :: ':' :: t => [] :: splitDoubleColon t
  | c :: t =>
    match splitDoubleColon t with
    | g :: gs => (c :: g) :: gs
    | [] => [[c]]
  | [] => [[]]

/-- Decimal value of a digit string (callers check the digits first). -/
def decimalValue (g : List Char) : Nat :=
  g.foldl (fun acc c => acc * 10 + (c.toNat - 48)) 0

/-- One dotted-quad octet, per CPython `_parse_octet`: 1-3 ASCII decimal
digits, no leading zero, value at most 255. -/
def parseOctet (g : List Char) : Option Nat :=
  if g.length = 0 || 3 < g.length then none
  else if !(g.all Char.isDigit) then none
  else if 1 < g.length && g.headD ' ' = '0' then none
  else
    let v := decimalValue g
    if v ≤ 255 then some v else none

/-- A dotted-quad IPv4 address, per CPython `_ip_int_from_string`:
exactly four octets. -/
def parseV4Addr (cs : List Char) : Option Nat :=
  match (splitOnChar '.' cs).mapM parseOctet with
  | some [a, b, c, d] => some (a * 16777216 + b * 65536 + c * 256 + d)
  | _ => none

/-- A prefix length, per CPython `_prefix_from_prefix_string`: nonempty
ASCII decimal digits (leading zeros permitted), value at most `maxLen`. -/
def parsePrefixLen (g : List Char) (maxLen : Nat) : Option Nat :=
  if g.length = 0 then none
  else if !(g.all Char.isDigit) then none
  else
    let v := decimalValue g
    if v ≤ maxLen then some v else none

/-- Hexadecimal digit test (Python accepts both cases). -/
def isHexChar (c : Char) : Bool :=
  c.isDigit || ('a' ≤ c && c ≤ 'f') || ('A' ≤ c && c ≤ 'F')

/-- Value of one hexadecimal digit. -/
def hexVal (c : Char) : Nat :=
  if c.isDigit then c.toNat - 48
  else if 'a' ≤ c then c.toNat - 87
  else c.toNat - 55

/-- One IPv6 hextet, per CPython `_parse_hextet`: 1-4 hex digits. -/
def parseHextet (g : List Char) : Option Nat :=
  if g.length = 0 || 4 < g.length then none
  else if !(g.all isHexChar) then none
  else some (g.foldl (fun acc c => acc * 16 + hexVal c) 0)

/-- Assemble a full list of eight 16-bit groups into the 128-bit value. -/
def groupsValue (gs : List Nat) : Nat :=
  gs.foldl (fun acc g => acc * 65536 + g) 0

/-- A hextet IPv6 address, per CPython `_ip_int_from_string` for
`IPv6Network`: either eight colon-separated hextets, or at most seven
split around a single `::` (which stands for at least one zero group). -/
def parseV6Addr (cs : List Char) : Option Nat :=
  match splitDoubleColon cs with
  | [whole] =>
    let gs := splitOnChar ':' whole
    if gs.length = 8 then
      match gs.mapM parseHextet with
      | some vs => some (groupsValue vs)
      | none => none
    else none
  | [l, r] =>
    let lg := if l.isEmpty then [] else splitOnChar ':' l
    let rg := if r.isEmpty then [] else splitOnChar ':' r
    if lg.length + rg.length ≤ 7 then
      match lg.mapM parseHextet, rg.mapM parseHextet with
      | some lv, some rv =>
        some (groupsValue (lv ++ List.replicate (8 - lv.length - rv.length) 0 ++ rv))
      | _, _ => none
    else none
  | _ => none

/-- Split a CIDR string on `/`, per CPython `_split_optional_netmask`:
no slash means the full-length prefix; more than one slash is an error.
Returns the address part and the prefix part (`none` when absent). -/
def splitCidr (cs : List Char) : Option (List Char × Option (List Char)) :=
  match splitOnChar '/' cs with
  | [a] => some (a, none)
  | [a, p] => some (a, some p)
  | _ => none

/-- The IPv4 reading of a CIDR string: `(address value, prefix length)`,
syntax only (the strict host-bits check happens in `ip_network`). -/
def parseIPv4Cidr (s : String) : Option (Nat × Nat) :=
  match splitCidr s.data with
  | some (a, po) =>
    match parseV4Addr a with
    | some v =>
      match po with
      | none => some (v, 32)
      | some p =>
        match parsePrefixLen p 32 with
        | some pl => some (v, pl)
        | none => none
    | none => none
  | none => none

/-- The IPv6 reading of a CIDR string, syntax only. -/
def parseIPv6Cidr (s : String) : Option (Nat × Nat) :=
  match splitCidr s.data with
  | some (a, po) =>
    match parseV6Addr a with
    | some v =>
      match po with
      | none => some (v, 128)
      | some p =>
        match parsePrefixLen p 128 with
        | some pl => some (v, pl)
        | none => none
    | none => none
  | none => none

/-- `ipaddress.ip_network(s)` with its default `strict=True`: try the
IPv4 syntax, then the IPv6 syntax; reject (ValueError) when neither
parses or when the address has host bits set below the prefix. -/
def ip_network (s : String) : Except PyErr Net :=
  match parseIPv4Cidr s with
  | some (a, p) =>
    if a % 2 ^ (32 - p) = 0 then Except.ok ⟨32, a, p⟩
    else Except.error PyErr.valueError
  | none =>
    match parseIPv6Cidr s with
    | some (a, p) =>
      if a % 2 ^ (128 - p) = 0 then Except.ok ⟨128, a, p⟩
      else Except.error PyErr.valueError
    | none => Except.error PyErr.valueError

/-!
## Rendering: `str(net)`

`IPv4Network.__str__` is the dotted quad followed by `/prefixlen`;
`IPv6Network.__str__` compresses the longest run (of length at least 2)
of zero hextets to `::` (the first such run on ties), lowercase hex
groups without leading zeros.
-/

/-- Decimal digits of a number (most significant first). -/
def decimalChars (n : Nat) : List Char := Nat.toDigits 10 n

/-- Dotted-quad rendering of a 32-bit address. -/
def v4Chars (a : Nat) : List Char :=
  decimalChars (a / 16777216 % 256) ++ '.' ::
    (decimalChars (a / 65536 % 256) ++ '.' ::
      (decimalChars (a / 256 % 256) ++ '.' :: decimalChars (a % 256)))

/-- The eight 16-bit groups of a 128-bit address. -/
def v6Groups (a : Nat) : List Nat :=
  (List.range 8).map fun i => a / 2 ^ (16 * (7 - i)) % 65536

/-- Maximal runs of zeros in a group list, as `(start index, length)`. -/
def zeroRuns : List Nat → Nat → List (Nat × Nat)
  | [], _ => []
  | g :: t, i =>
    if g = 0 then
      match zeroRuns t (i + 1) with
      | (j, l) :: rest => if j = i + 1 then (i, l + 1) :: rest else (i, 1) :: (j, l) :: rest
      | [] => [(i, 1)]
    else zeroRuns t (i + 1)

/-- First-longest zero run (`(0, 0)` when there are no zeros). -/
def bestZeroRun (rs : List (Nat × Nat)) : Nat × Nat :=
  rs.foldl (fun b r => if b.2 < r.2 then r else b) (0, 0)

/-- Join hextet renderings with `:`. -/
def joinColon : List (List Char) → List Char
  | [] => []
  | [g] => g
  | g :: t => g ++ ':' :: joinColon t

/-- RFC-5952-style rendering of a 128-bit address, per CPython
`_string_from_ip_int`: compress the first longest run of at least two
zero groups. -/
def v6Chars (a : Nat) : List Char :=
  let gs := v6Groups a
  let best := bestZeroRun (zeroRuns gs 0)
  if 2 ≤ best.2 then
    joinColon ((gs.take best.1).map (Nat.toDigits 16)) ++ ':' :: ':' ::
      joinColon ((gs.drop (best.1 + best.2)).map (Nat.toDigits 16))
  else
    joinColon (gs.map (Nat.toDigits 16))

/-- Python `str(net)` for a network object. -/
def netStr (n : Net) : String :=
  String.mk ((if n.bits = 32 then v4Chars n.addr else v6Chars n.addr) ++
    '/' :: decimalChars n.plen)

/-!
## `merge_ip_ranges`
-/

/-- Module constant `DEFAULT_COVERAGE_THRESHOLD = 0.9` (line 10). -/
def DEFAULT_COVERAGE_THRESHOLD : ℚ := 9 / 10

/-- The parse-and-partition loop of `merge_ip_ranges` (lines 92-99):
parse each entry in order with `ip_network`, appending `IPv4Network`s to
the first list and the rest to the second; the first `ValueError`
aborts the whole call (the exception propagates, nothing is returned). -/
def parseNetworks : List String → Except PyErr (List Net × List Net)
  | [] => Except.ok ([], [])
  | r :: rs =>
    match ip_network r with
    | Except.error e => Except.error e
    | Except.ok net =>
      match parseNetworks rs with
      | Except.error e => Except.error e
      | Except.ok (v4, v6) =>
        if net.bits = 32 then Except.ok (net :: v4, v6)
        else Except.ok (v4, net :: v6)

/-- Key order of the sort at lines 102-103:
`(net.network_address, net.prefixlen)` ascending. -/
def netLE (a b : Net) : Bool :=
  decide (a.addr < b.addr) || (decide (a.addr = b.addr) && decide (a.plen ≤ b.plen))

/-- Stable insertion keeping earlier elements before later ones with an
equal key. -/
def sortedInsert (n : Net) : List Net → List Net
  | [] => [n]
  | m :: t => if netLE m n then m :: sortedInsert n t else n :: m :: t

/-- Python `list.sort(key=lambda net: (net.network_address, net.prefixlen))`
is a stable ascending sort; any stable sort computes the same list, here
by insertion in input order. -/
def sortNetworks (l : List Net) : List Net :=
  l.foldl (fun acc n => sortedInsert n acc) []

/-- `merge_ip_ranges` (lines 83-124): parse and partition, sort each
family, iterate the optimization pass to a fixpoint for IPv4 then for
IPv6, render. The `coverage_threshold` parameter (default
`DEFAULT_COVERAGE_THRESHOLD`) is accepted but — exactly as in the
source — never forwarded to `_optimize_networks`, which instead reads
an undefined global of that name. `fuel` bounds both the scan loop and
the number of rounds; `none` means some source loop has not terminated
within the fuel. -/
def merge_ip_ranges (ip_ranges : List String) (coverage_threshold : ℚ)
    (fuel : Nat) : Option (Except PyErr (List String)) :=
  match parseNetworks ip_ranges with
  | Except.error e => some (Except.error e)
  | Except.ok (networks_v4, networks_v6) =>
    match optimization_rounds (sortNetworks networks_v4) fuel fuel with
    | none => none
    | some (Except.error e) => some (Except.error e)
    | some (Except.ok out_v4) =>
      match optimization_rounds (sortNetworks networks_v6) fuel fuel with
      | none => none
      | some (Except.error e) => some (Except.error e)
      | some (Except.ok out_v6) =>
        some (Except.ok (out_v4.map netStr ++ out_v6.map netStr))

/-!
## Helper lemmas
-/

/-- `subnet_of` is reflexive, exactly as Python's `subnet_of` is. -/
theorem subnet_of_refl (n : Net) : subnet_of n n = true := by
  simp [subnet_of]

/-- A cursor element whose prefix length is zero leaves the scan loop's
state unchanged, for every amount of fuel: the loop never terminates. -/
theorem optimize_loop_stuck (networks optimised : List Net) (i : Nat)
    (h : i < networks.length) (hz : (networks.get ⟨i, h⟩).plen = 0) :
    ∀ fuel, optimize_loop networks optimised i fuel = none := by
  intro fuel
  induction fuel with
  | zero => rfl
  | succ f ih =>
    simp only [optimize_loop]
    rw [dif_pos h, if_neg (by rw [hz]; exact Nat.lt_irrefl 0)]
    exact ih

/-- When a pass does not terminate, neither does the fixpoint loop. -/
theorem optimization_rounds_none (networks : List Net) (fuel : Nat)
    (h : optimize_networks networks fuel = none) :
    ∀ r, optimization_rounds networks fuel r = none := by
  intro r
  cases r with
  | zero => rfl
  | succ r' => simp [optimization_rounds, h]

/-- The only error `ip_network` raises is `ValueError`. -/
theorem ip_network_error_eq (s : String) (e : PyErr)
    (h : ip_network s = Except.error e) : e = PyErr.valueError := by
  unfold ip_network at h
  split at h
  · split at h
    · exact absurd h (by simp)
    · injection h with h'; exact h'.symm
  · split at h
    · split at h
      · exact absurd h (by simp)
      · injection h with h'; exact h'.symm
    · injection h with h'; exact h'.symm

/-- If any entry fails to parse, the parse-and-partition loop raises
`ValueError` (the whole call aborts with no partial result). -/
theorem parseNetworks_invalid (rs : List String)
    (h : ∃ r ∈ rs, ∃ e, ip_network r = Except.error e) :
    parseNetworks rs = Except.error PyErr.valueError := by
  induction rs with
  | nil => simp at h
  | cons r t ih =>
    obtain ⟨r', hr', e, he⟩ := h
    rcases List.mem_cons.mp hr' with hEq | hMem
    · subst hEq
      have hv := ip_network_error_eq r' e he
      subst hv
      simp [parseNetworks, he]
    · cases hh : ip_network r with
      | error e2 =>
        have h2 := ip_network_error_eq r e2 hh
        subst h2
        simp [parseNetworks, hh]
      | ok net =>
        have ht := ih ⟨r', hMem, e, he⟩
        simp [parseNetworks, hh, ht]

/-- The inner filter of `_calculate_coverage` absorbs the
potential-children selection of line 48: because Python's `subnet_of` is
non-strict, `net == parent` already implies `net.subnet_of(parent)`. -/
theorem potential_children_filter (nets : List Net) (p : Net) :
    (potential_children nets p).filter (fun n => subnet_of n p) =
      nets.filter fun n => subnet_of n p := by
  unfold potential_children
  rw [List.filter_filter]
  apply List.filter_congr
  intro n _
  by_cases he : n = p
  · subst he; simp [subnet_of_refl]
  · by_cases hb : subnet_of n p <;> simp [hb, he]

/-- The spec's two-step selection collapses likewise: filtering the
`sameOrSubnetOf` window by `strictSubnetOf` is filtering the whole list
by `strictSubnetOf`. -/
theorem spec_children_filter (nets : List Net) (p : Net) :
    ((nets.filter fun n => sameOrSubnetOf_spec n p).filter
        fun n => strict_subnet_of_spec n p) =
      nets.filter fun n => strict_subnet_of_spec n p := by
  rw [List.filter_filter]
  apply List.filter_congr
  intro n _
  by_cases hb : subnet_of n p <;>
    simp [strict_subnet_of_spec, sameOrSubnetOf_spec, hb]

/-- Splitting the non-strict covered sum into the strict covered sum
plus one full parent size per occurrence of the parent itself. -/
theorem covered_filter_split (p : Net) (nets : List Net) :
    ((nets.filter fun n => subnet_of n p).map num_addresses).sum =
      ((nets.filter fun n => strict_subnet_of_spec n p).map num_addresses).sum +
        num_addresses p * countEq nets p := by
  induction nets with
  | nil => rfl
  | cons n t ih =>
    unfold countEq at ih ⊢
    by_cases he : n = p
    · subst he
      simp [List.filter_cons, subnet_of_refl, strict_subnet_of_spec, ih]
      ring
    · by_cases hs : subnet_of n p = true
      · simp [List.filter_cons, hs, strict_subnet_of_spec, he, ih]
        ring
      · simp [List.filter_cons, hs, strict_subnet_of_spec, he, ih]

/-- Evaluation principle for `calculate_coverage` from the integer
numerator and denominator. -/
theorem calc_coverage_eval (p : Net) (cs : List Net) (a b : Nat)
    (ha : coveredAddresses p cs = a) (hb : num_addresses p = b) :
    calculate_coverage p cs = (a : ℚ) / (b : ℚ) := by
  unfold calculate_coverage
  rw [ha, hb]

/-!
## Claims
-/

/-- Claim C1 (code bug in the source): the `coverage_threshold` argument
of `merge_ip_ranges` is supposed to govern parent promotion, but the
source never passes it to `_optimize_networks`; that function reads the
undefined global name `coverage_threshold`, so on this valid two-sibling
input the call raises `NameError` — for EVERY threshold value `t`, the
result is the same error, and no promotion is ever governed by the
argument. -/
theorem merge_threshold_never_used :
    ∀ (t : ℚ) (fuel : Nat),
      merge_ip_ranges ["203.0.112.0/24", "203.0.113.0/24"] t (fuel + 1) =
        some (Except.error PyErr.nameError) := by
  intro t fuel
  rfl

/-- Claim C2 (counterexample): with the sorted-order-free list
`[10.0.0.0/24, 10.0.0.0/23]` and cursor `10.0.0.0/24`, the parent
considered is `10.0.0.0/23`, which is itself in the list; the code's
coverage is `(256 + 512) / 512 = 3/2` while the spec's formula (only
strict subnets in the numerator) gives `256 / 512 = 1/2`: the claim that
`P` never contributes to the numerator is false. -/
theorem cursor_coverage_differs_from_spec :
    cursorCoverage [⟨32, 167772160, 24⟩, ⟨32, 167772160, 23⟩]
        ⟨32, 167772160, 24⟩ = 3 / 2 ∧
    cursorCoverage_spec [⟨32, 167772160, 24⟩, ⟨32, 167772160, 23⟩]
        ⟨32, 167772160, 24⟩ = 1 / 2 ∧
    cursorCoverage [⟨32, 167772160, 24⟩, ⟨32, 167772160, 23⟩]
        ⟨32, 167772160, 24⟩ ≠
      cursorCoverage_spec [⟨32, 167772160, 24⟩, ⟨32, 167772160, 23⟩]
        ⟨32, 167772160, 24⟩ := by
  have h1 : cursorCoverage [⟨32, 167772160, 24⟩, ⟨32, 167772160, 23⟩]
      ⟨32, 167772160, 24⟩ = ((768 : Nat) : ℚ) / ((512 : Nat) : ℚ) :=
    calc_coverage_eval _ _ 768 512 (by decide) (by decide)
  have h2 : cursorCoverage_spec [⟨32, 167772160, 24⟩, ⟨32, 167772160, 23⟩]
      ⟨32, 167772160, 24⟩ = ((256 : Nat) : ℚ) / ((512 : Nat) : ℚ) := by
    unfold cursorCoverage_spec
    rw [show ((([⟨32, 167772160, 24⟩, ⟨32, 167772160, 23⟩].filter fun net =>
        sameOrSubnetOf_spec net (supernet ⟨32, 167772160, 24⟩)).filter
          fun net => strict_subnet_of_spec net
            (supernet ⟨32, 167772160, 24⟩)).map num_addresses).sum = 256 from by decide,
      show num_addresses (supernet ⟨32, 167772160, 24⟩) = 512 from by decide]
  rw [h1, h2]
  norm_num

/-- Claim C2 (amended): the coverage the code computes for the parent
`P` of the cursor element equals the spec's strict-subnet coverage PLUS
one (full parent size over parent size) for every occurrence of `P`
itself in the list — `P` does contribute to the numerator whenever it is
literally present, because Python's `subnet_of` is non-strict. -/
theorem cursor_coverage_counts_parent (nets : List Net) (cur : Net)
    (h : 0 < cur.plen) :
    cursorCoverage nets cur =
      cursorCoverage_spec nets cur + (countEq nets (supernet cur) : ℚ) := by
  have hsz : (num_addresses (supernet cur) : ℚ) ≠ 0 := by
    unfold num_addresses
    push_cast
    positivity
  unfold cursorCoverage cursorCoverage_spec calculate_coverage coveredAddresses
  rw [potential_children_filter, spec_children_filter, covered_filter_split]
  push_cast
  field_simp
  ring

/-- Claim C2 amended, witnessed at `192.0.2.0/24` alone in the list (its
parent is absent, so the correction term is zero and both coverages are
`1/2`). -/
theorem cursor_coverage_counts_parent_witness :
    0 < (⟨32, 3221225984, 24⟩ : Net).plen ∧
    cursorCoverage [⟨32, 3221225984, 24⟩] ⟨32, 3221225984, 24⟩ =
      cursorCoverage_spec [⟨32, 3221225984, 24⟩] ⟨32, 3221225984, 24⟩ +
        (countEq [⟨32, 3221225984, 24⟩] (supernet ⟨32, 3221225984, 24⟩) : ℚ) :=
  ⟨by decide,
    cursor_coverage_counts_parent [⟨32, 3221225984, 24⟩] ⟨32, 3221225984, 24⟩ (by decide)⟩

/-- Claim C3 (code bug in the source): on input `["0.0.0.0/0"]` the scan
loop of `_optimize_networks` reaches the zero-length prefix, whose case
is not handled (lines 43-78 are all under `if current.prefixlen > 0:`),
so the cursor never advances: for every fuel bound the call has not
terminated, i.e. `merge_ip_ranges` hangs instead of emitting the prefix
as-is and finishing the pass. -/
theorem merge_diverges_on_zero_prefixlen :
    ∀ (t : ℚ) (fuel : Nat), merge_ip_ranges ["0.0.0.0/0"] t fuel = none := by
  intro t fuel
  have hstuck : ∀ f, optimize_loop [⟨32, 0, 0⟩] [] 0 f = none :=
    optimize_loop_stuck [⟨32, 0, 0⟩] [] 0 (by decide) (by decide)
  have hpass : optimize_networks [⟨32, 0, 0⟩] fuel = none := by
    simp [optimize_networks, hstuck]
  have hrounds := optimization_rounds_none [⟨32, 0, 0⟩] fuel hpass fuel
  have hp : parseNetworks ["0.0.0.0/0"] = Except.ok ([⟨32, 0, 0⟩], []) := rfl
  have hsort : sortNetworks [⟨32, 0, 0⟩] = [⟨32, 0, 0⟩] := rfl
  simp [merge_ip_ranges, hp, hsort, hrounds]

/-- Claim C4: an entry that `ip_network` rejects makes the whole
`merge_ip_ranges` call fail with `ValueError`, for every threshold and
fuel (the parse loop of lines 94-99 runs before any sorting or
optimization, and the exception propagates: no partial list of the valid
entries is ever returned). -/
theorem merge_fails_on_invalid_cidr :
    ∀ (rs : List String) (t : ℚ) (fuel : Nat),
      (∃ r ∈ rs, ∃ e, ip_network r = Except.error e) →
      merge_ip_ranges rs t fuel = some (Except.error PyErr.valueError) := by
  intro rs t fuel h
  simp [merge_ip_ranges, parseNetworks_invalid rs h]

/-- Claim C4, witnessed at the spec's own example `["not-a-cidr"]`. -/
theorem merge_fails_on_invalid_cidr_witness :
    (∃ r ∈ ["not-a-cidr"], ∃ e, ip_network r = Except.error e) ∧
    merge_ip_ranges ["not-a-cidr"] DEFAULT_COVERAGE_THRESHOLD 1 =
      some (Except.error PyErr.valueError) :=
  have h : ∃ r ∈ ["not-a-cidr"], ∃ e, ip_network r = Except.error e :=
    ⟨"not-a-cidr", by simp, PyErr.valueError, rfl⟩
  ⟨h, merge_fails_on_invalid_cidr ["not-a-cidr"] DEFAULT_COVERAGE_THRESHOLD 1 h⟩

/-- Claim C5 (code bug in the source): `merge_ip_ranges` raises
`NameError` (undefined `coverage_threshold`) on every nonempty valid
input, here the single-prefix list `["10.0.0.0/24"]`, for every
threshold and fuel; it therefore never produces an output list on which
`merge_ip_ranges` could be applied again, and the claimed idempotence
equation has no code behaviour to hold of (only the empty input returns,
trivially). -/
theorem merge_no_output_for_idempotence :
    ∀ (t : ℚ) (fuel : Nat),
      merge_ip_ranges ["10.0.0.0/24"] t (fuel + 1) =
        some (Except.error PyErr.nameError) := by
  intro t fuel
  rfl

/-- Claim C6 (code bug in the source): on the mixed IPv4/IPv6 input
`["192.0.2.0/24", "2001:db8::/32"]` the IPv4 pass raises `NameError`
before anything is produced, for every threshold and fuel: no sequence
(IPv4-before-IPv6 or otherwise) is ever returned. -/
theorem merge_mixed_families_raises_nameError :
    ∀ (t : ℚ) (fuel : Nat),
      merge_ip_ranges ["192.0.2.0/24", "2001:db8::/32"] t (fuel + 1) =
        some (Except.error PyErr.nameError) := by
  intro t fuel
  rfl

/-- Claim C7 (counterexample): duplicating the single entry
`10.0.0.0/24` raises the computed coverage of its parent `10.0.0.0/23`
from `1/2` to `1`: duplicates DO inflate the parent's coverage ratio
(each occurrence is summed again in `_calculate_coverage`), contrary to
the claim that they are absorbed with no effect on coverage. -/
theorem duplicate_inflates_coverage :
    cursorCoverage [⟨32, 167772160, 24⟩, ⟨32, 167772160, 24⟩]
        ⟨32, 167772160, 24⟩ = 1 ∧
    cursorCoverage [⟨32, 167772160, 24⟩] ⟨32, 167772160, 24⟩ = 1 / 2 ∧
    cursorCoverage [⟨32, 167772160, 24⟩, ⟨32, 167772160, 24⟩]
        ⟨32, 167772160, 24⟩ ≠
      cursorCoverage [⟨32, 167772160, 24⟩] ⟨32, 167772160, 24⟩ := by
  have h1 : cursorCoverage [⟨32, 167772160, 24⟩, ⟨32, 167772160, 24⟩]
      ⟨32, 167772160, 24⟩ = ((512 : Nat) : ℚ) / ((512 : Nat) : ℚ) :=
    calc_coverage_eval _ _ 512 512 (by decide) (by decide)
  have h2 : cursorCoverage [⟨32, 167772160, 24⟩] ⟨32, 167772160, 24⟩ =
      ((256 : Nat) : ℚ) / ((512 : Nat) : ℚ) :=
    calc_coverage_eval _ _ 256 512 (by decide) (by decide)
  rw [h1, h2]
  norm_num

/-- Claim C7 (amended): duplicates are counted again by the coverage
computation — doubling a child list doubles every parent's coverage
value, so duplicated entries inflate coverage ratios (and under the
documented threshold rule would trigger extra promotions) rather than
being absorbed before coverage is measured. -/
theorem coverage_doubles_on_duplicated_list (parent : Net) (children : List Net) :
    calculate_coverage parent (children ++ children) =
      2 * calculate_coverage parent children := by
  unfold calculate_coverage coveredAddresses
  rw [List.filter_append, List.map_append, List.sum_append]
  push_cast
  ring

/-- Claim C8: merging the empty list returns the empty list with no
error, for every threshold; and `_optimize_networks` on an empty family
list short-circuits at its `len(networks) == 0` check — independently of
any fuel, hence before any supernet/parent computation could run. -/
theorem merge_empty_returns_empty :
    ∀ (t : ℚ) (fuel : Nat),
      merge_ip_ranges [] t (fuel + 1) = some (Except.ok []) ∧
      optimize_networks [] fuel = some (Except.ok []) := by
  intro t fuel
  exact ⟨rfl, rfl⟩

/-- Claim C9 (code bug in the source): an optimization pass on a
nonempty list never returns a list at all — here, on the valid
single-prefix input `198.51.100.0/24`, the pass raises `NameError` for
every fuel bound (and on a zero-length prefix it never terminates), so
no pass "returns a list whose length is at most the input's", and the
per-family fixpoint loop propagates the error instead of iterating to a
fixpoint. -/
theorem optimize_pass_raises_nameError :
    ∀ fuel : Nat,
      optimize_networks [⟨32, 3325256704, 24⟩] (fuel + 1) =
        some (Except.error PyErr.nameError) := by
  intro fuel
  rfl

/-- Claim C10: parsing at the public interface is strict — whenever the
IPv4 syntax of an entry parses to an address with nonzero host bits
below the prefix length, `merge_ip_ranges` raises `ValueError` (for
every threshold and fuel) instead of normalizing the address down to the
canonical base. -/
theorem merge_rejects_host_bits :
    ∀ (s : String) (a p : Nat) (t : ℚ) (fuel : Nat),
      parseIPv4Cidr s = some (a, p) → a % 2 ^ (32 - p) ≠ 0 →
      merge_ip_ranges [s] t fuel = some (Except.error PyErr.valueError) := by
  intro s a p t fuel hp hb
  have hnet : ip_network s = Except.error PyErr.valueError := by
    simp [ip_network, hp, hb]
  have hparse : parseNetworks [s] = Except.error PyErr.valueError := by
    simp [parseNetworks, hnet]
  simp [merge_ip_ranges, hparse]

/-- Claim C10, witnessed at `"10.0.0.1/24"` (address `10.0.0.1`, host
byte `1` nonzero below the `/24`). -/
theorem merge_rejects_host_bits_witness :
    parseIPv4Cidr ("10.0.0.1/24") = some (167772161, 24) ∧
    167772161 % 2 ^ (32 - 24) ≠ 0 ∧
    merge_ip_ranges ["10.0.0.1/24"] DEFAULT_COVERAGE_THRESHOLD 1 =
      some (Except.error PyErr.valueError) :=
  ⟨by decide, by decide,
    merge_rejects_host_bits ("10.0.0.1/24") 167772161 24
      DEFAULT_COVERAGE_THRESHOLD 1 (by decide) (by decide)⟩

end Geoip
